import Mathlib

/-!
Verification of the oakOS snapclient plugin core: process supervision
(`backend/infrastructure/plugins/snapclient/process.py`), server discovery
(`discovery.py`), the server data model (`models.py`), and the plugin command /
discovery-loop logic (`plugin.py`).  Stateful Python methods are embedded as
pure functions over explicit state, with the surrounding OS environment
(spawn results, signal outcomes, `ps` answers, subprocess outcomes) passed in
as explicit environment values and the externally observable side effects
(signals sent, `killall` sweeps, process spawns) returned as action traces.
-/

namespace OakOS

/-- `SnapclientServer` from `models.py`: host, name, and port (default 1704).
In the source, equality and hashing are by `host` alone; the embedding keeps
all three fields and expresses the by-host identity at the use sites
(set membership checks compare hosts). -/
structure SnapclientServer where
  host : String
  name : String
  port : Int := 1704
  deriving Repr, DecidableEq

/-- The state of one `asyncio.subprocess.Process` handle as the process
manager observes it: its PID and its `returncode` (none while running). -/
structure ProcHandle where
  pid : Nat
  returncode : Option Int
  deriving Repr, DecidableEq

/-- Internal state of `SnapclientProcessManager` (`process.py`):
`_process` and `_current_host`. -/
structure PMState where
  proc : Option ProcHandle
  currentHost : Option String
  deriving Repr, DecidableEq

/-- Externally observable actions of the process manager: signals sent to the
tracked PID, the `killall -KILL snapclient` sweep of
`_ensure_no_snapclient_running`, and a `create_subprocess_exec` spawn. -/
inductive PMAction where
  | sigterm (pid : Nat)
  | sigkill (pid : Nat)
  | killall
  | spawn (host : String)
  deriving Repr, DecidableEq

/-- Environment outcomes for `stop()`'s signalling phase: SIGTERM succeeds
within 2s; SIGTERM times out and SIGKILL succeeds within 1s; SIGTERM times
out and even SIGKILL's wait times out; or the process vanished
(`ProcessLookupError`). -/
inductive StopEnv where
  | termOk
  | termTimeoutKillOk
  | termTimeoutKillFail
  | procGone
  deriving Repr, DecidableEq

/-- The signals `stop()` attempts to deliver in each environment outcome. -/
def stopSignals (env : StopEnv) (pid : Nat) : List PMAction :=
  match env with
  | .termOk => [.sigterm pid]
  | .termTimeoutKillOk => [.sigterm pid, .sigkill pid]
  | .termTimeoutKillFail => [.sigterm pid, .sigkill pid]
  | .procGone => [.sigterm pid]

/-- `SnapclientProcessManager.stop` (`process.py` 98-151).  If no process is
tracked or the tracked one has already exited, it still runs the `killall`
sweep, clears `_process` and `_current_host`, and returns `True`.  Otherwise
it signals the process (SIGTERM, then SIGKILL on timeout), and in the
`finally` block clears `_process` and `_current_host` and runs the `killall`
sweep; it returns `True` in every case. -/
def stop (env : StopEnv) (s : PMState) : Bool × PMState × List PMAction :=
  match s.proc with
  | none => (true, ⟨none, none⟩, [.killall])
  | some h =>
    if h.returncode.isSome then (true, ⟨none, none⟩, [.killall])
    else (true, ⟨none, none⟩, stopSignals env h.pid ++ [.killall])

/-- Outcome of the spawn attempt inside `start()`: the
`create_subprocess_exec` call raises (`FileNotFoundError` or other), or it
yields a process with the given PID whose `returncode` after the 0.5s settle
wait is `immediateExit` (`none` = still running). -/
inductive SpawnResult where
  | fail
  | ok (pid : Nat) (immediateExit : Option Int)
  deriving Repr, DecidableEq

/-- Environment for `start()`: whether `check_executable()` succeeds, the
outcome of the `stop()` signalling phase if a stop is needed, and the spawn
outcome. -/
structure StartEnv where
  execOk : Bool
  stopEnv : StopEnv
  spawnResult : SpawnResult
  deriving Repr, DecidableEq

/-- Whether the manager currently tracks a live process
(`self._process and self._process.returncode is None`). -/
def pmLive (s : PMState) : Bool :=
  match s.proc with
  | some h => h.returncode.isNone
  | none => false

/-- `SnapclientProcessManager.start` (`process.py` 39-96).  Fails fast if the
executable check fails; if a live process is tracked, awaits `stop()` first;
then spawns.  On spawn exception or immediate exit, clears `_process` and
returns `False`; on success records the new handle and `_current_host`. -/
def start (env : StartEnv) (host : String) (s : PMState) : Bool × PMState × List PMAction :=
  if env.execOk = false then (false, s, [])
  else
    let stopped := if pmLive s then (stop env.stopEnv s).2.1 else s
    let tr := if pmLive s then (stop env.stopEnv s).2.2 else []
    match env.spawnResult with
    | .fail => (false, { stopped with proc := none }, tr ++ [.spawn host])
    | .ok pid none =>
        (true, { proc := some ⟨pid, none⟩, currentHost := some host }, tr ++ [.spawn host])
    | .ok _ (some _) => (false, { stopped with proc := none }, tr ++ [.spawn host])

/-- Outcome of the `ps -p PID` system probe in `is_running`: it answered
(alive or not), or the probe itself raised. -/
inductive PsEnv where
  | ok (alive : Bool)
  | error
  deriving Repr, DecidableEq

/-- Environment for `is_running`: the `ps` probe outcome, plus the stop
environment used if `is_running` falls back to `stop()`. -/
structure IsRunningEnv where
  ps : PsEnv
  stopEnv : StopEnv
  deriving Repr, DecidableEq

/-- `SnapclientProcessManager.is_running` (`process.py` 153-187).  Returns
`False` without mutation when no live handle is tracked; otherwise consults
`ps`: alive confirms `True`; dead triggers a full `stop()` cleanup and
returns `False`; a probe error falls back to the handle's own
`returncode is None`. -/
def is_running (env : IsRunningEnv) (s : PMState) : Bool × PMState × List PMAction :=
  match s.proc with
  | none => (false, s, [])
  | some h =>
    if h.returncode.isSome then (false, s, [])
    else
      match env.ps with
      | .ok true => (true, s, [])
      | .ok false => (false, (stop env.stopEnv s).2.1, (stop env.stopEnv s).2.2)
      | .error => (h.returncode.isNone, s, [])

theorem stop_result (env : StopEnv) (s : PMState) :
    (stop env s).1 = true ∧ (stop env s).2.1 = ⟨none, none⟩
      ∧ PMAction.killall ∈ (stop env s).2.2
      ∧ ∀ p, PMAction.spawn p ∉ (stop env s).2.2 := by
  obtain ⟨proc, host⟩ := s
  cases proc with
  | none => simp [stop]
  | some h =>
    cases hrc : h.returncode with
    | none => cases env <;> simp [stop, stopSignals, hrc]
    | some c => simp [stop, hrc]

/-- Claim C1: if `start(host)` is called while a live process is tracked (and
the executable check passes), the full action trace of `stop()` — which never
spawns anything and ends with the tracked handle and host cleared — precedes
the single `spawn` action of the new process, so the manager never observes a
second spawn before the previous process is fully stopped and never holds two
live handles. -/
theorem start_stops_existing_before_spawn (env : StartEnv) (host : String) (s : PMState)
    (hlive : pmLive s = true) (hexec : env.execOk = true) :
    (start env host s).2.2 = (stop env.stopEnv s).2.2 ++ [PMAction.spawn host]
    ∧ (stop env.stopEnv s).2.1 = ⟨none, none⟩
    ∧ (∀ p, PMAction.spawn p ∉ (stop env.stopEnv s).2.2) := by
  refine ⟨?_, (stop_result env.stopEnv s).2.1, (stop_result env.stopEnv s).2.2.2⟩
  have hne : ¬ env.execOk = false := by simp [hexec]
  cases hsp : env.spawnResult with
  | fail => simp [start, hne, hlive, hsp]
  | ok pid rc => cases rc <;> simp [start, hne, hlive, hsp]

/-- Witness for C1 at a concrete live state and environment. -/
theorem start_stops_existing_before_spawn_witness :
    (pmLive ⟨some ⟨41, none⟩, some "192.168.1.5"⟩ = true
      ∧ StartEnv.execOk ⟨true, .termOk, .ok 42 none⟩ = true)
    ∧ ((start ⟨true, .termOk, .ok 42 none⟩ "192.168.1.7" ⟨some ⟨41, none⟩, some "192.168.1.5"⟩).2.2
        = (stop .termOk ⟨some ⟨41, none⟩, some "192.168.1.5"⟩).2.2 ++ [PMAction.spawn "192.168.1.7"]
      ∧ (stop .termOk ⟨some ⟨41, none⟩, some "192.168.1.5"⟩).2.1 = ⟨none, none⟩
      ∧ (∀ p, PMAction.spawn p ∉ (stop .termOk ⟨some ⟨41, none⟩, some "192.168.1.5"⟩).2.2)) :=
  ⟨⟨rfl, rfl⟩,
    start_stops_existing_before_spawn ⟨true, .termOk, .ok 42 none⟩ "192.168.1.7"
      ⟨some ⟨41, none⟩, some "192.168.1.5"⟩ rfl rfl⟩

/-- Claim C2: `stop()` is idempotent and total.  For every internal state and
environment outcome it returns `True`, clears the tracked handle and host,
and performs the `killall` sweep; a second call also returns `True` and
sweeps again; and afterwards `is_running()` reports `False` in every probe
environment. -/
theorem stop_idempotent_total (env env2 : StopEnv) (e : IsRunningEnv) (s : PMState) :
    (stop env s).1 = true
    ∧ (stop env s).2.1.proc = none
    ∧ (stop env s).2.1.currentHost = none
    ∧ PMAction.killall ∈ (stop env s).2.2
    ∧ (stop env2 (stop env s).2.1).1 = true
    ∧ PMAction.killall ∈ (stop env2 (stop env s).2.1).2.2
    ∧ (is_running e (stop env s).2.1).1 = false := by
  have h1 := stop_result env s
  have h2 := stop_result env2 (stop env s).2.1
  refine ⟨h1.1, ?_, ?_, h1.2.2.1, h2.1, h2.2.2.1, ?_⟩
  · rw [h1.2.1]
  · rw [h1.2.1]
  · rw [h1.2.1]; simp [is_running]

/-- Python's `str.split(sep)` for a single-character separator (the source
only splits on `;`, `.` and newlines), over the character list of the
string. -/
def splitOnChar (sep : Char) : List Char → List (List Char)
  | [] => [[]]
  | c :: rest =>
    let r := splitOnChar sep rest
    if c = sep then [] :: r
    else
      match r with
      | [] => [[c]]
      | h :: t => (c :: h) :: t

/-- Python's `str.strip()`: remove whitespace from both ends. -/
def trimChars (l : List Char) : List Char :=
  ((l.dropWhile Char.isWhitespace).reverse.dropWhile Char.isWhitespace).reverse

/-- Python's `str.lower()` (character-wise lowering). -/
def lowerChars (l : List Char) : List Char := l.map Char.toLower

/-- Digit run of Python's `int()` after the first digit: decimal digits with
single `_` separators allowed between digits only. -/
def pyDigitsCore : Nat → List Char → Option Nat
  | acc, [] => some acc
  | acc, '_' :: c :: rest =>
      if c.isDigit then pyDigitsCore (acc * 10 + (c.toNat - '0'.toNat)) rest else none
  | acc, c :: rest =>
      if c.isDigit then pyDigitsCore (acc * 10 + (c.toNat - '0'.toNat)) rest else none

/-- Python's `int(s)` on a decimal string: optional surrounding whitespace,
optional sign, at least one digit, `_` group separators; `none` models
`ValueError`. -/
def pyInt (l : List Char) : Option Int :=
  match trimChars l with
  | [] => none
  | '+' :: c :: rest =>
      if c.isDigit then (pyDigitsCore (c.toNat - '0'.toNat) rest).map Int.ofNat else none
  | '-' :: c :: rest =>
      if c.isDigit then (pyDigitsCore (c.toNat - '0'.toNat) rest).map (fun n => -(Int.ofNat n)) else none
  | c :: rest =>
      if c.isDigit then (pyDigitsCore (c.toNat - '0'.toNat) rest).map Int.ofNat else none

/-- One line of `SnapclientDiscovery._parse_avahi_output` (`discovery.py`
114-176): only `=` resolved-service lines with at least 10 `;`-fields,
protocol `IPv4`, a non-`127.` address, and a domain-stripped lowercased
hostname different from the local one yield a server; the server's name is
that short hostname and its port is the parsed field 9. -/
def parse_avahi_line (own : String) (line : List Char) : Option SnapclientServer :=
  if ¬ List.isPrefixOf "=".data line then none
  else
    let parts := splitOnChar ';' line
    if parts.length < 10 then none
    else
      let protocol := parts.getD 2 []
      let hostname := trimChars (parts.getD 7 [])
      let address := trimChars (parts.getD 8 [])
      let portStr := trimChars (parts.getD 9 [])
      if protocol ≠ "IPv4".data then none
      else if List.isPrefixOf "127.".data address then none
      else
        let shortHost := lowerChars ((splitOnChar '.' hostname).getD 0 [])
        if shortHost = own.data then none
        else
          match pyInt portStr with
          | none => none
          | some port => some { host := ⟨address⟩, name := ⟨shortHost⟩, port := port }

/-- Accumulating one parsed line into the discovered set: the source adds the
server only if no server with the same host is present
(`SnapclientServer.__eq__`/`__hash__` compare hosts). -/
def parseStep (own : String) (acc : List SnapclientServer) (line : List Char) : List SnapclientServer :=
  match parse_avahi_line own line with
  | none => acc
  | some srv => if acc.any (fun x => decide (x.host = srv.host)) then acc else acc ++ [srv]

/-- `SnapclientDiscovery._parse_avahi_output` over the whole output text:
strip, split into lines, and fold every line through `parseStep`. -/
def parse_avahi_output (own : String) (output : String) : List SnapclientServer :=
  List.foldl (parseStep own) [] (splitOnChar '\n' (trimChars output.data))

/-- `sorted(list(servers), key=lambda s: s.name)` at the end of
`SnapclientDiscovery.discover`. -/
def sortByName (l : List SnapclientServer) : List SnapclientServer :=
  l.mergeSort (fun a b => decide (a.name ≤ b.name))

/-- Outcome of the `avahi-browse` invocation inside
`SnapclientDiscovery.discover` (`discovery.py` 51-112): the command path was
never found (`_avahi_cmd is None`), the bounded wait timed out, the exec
raised, or the command completed with a return code and stdout text. -/
inductive DiscOutcome where
  | noAvahi
  | timeout
  | execError
  | completed (returncode : Int) (stdout : String)
  deriving Repr, DecidableEq

/-- Observable side effect of `discover`: the `process.kill()` issued on
timeout. -/
inductive DiscAction where
  | killProc
  deriving Repr, DecidableEq

/-- The `timeout` default of `SnapclientDiscovery.__init__` (3.0 seconds). -/
def discoveryDefaultTimeoutSeconds : Nat := 3

/-- `SnapclientDiscovery.discover` (`discovery.py` 51-112): no command or any
exception yields `[]`; a timeout kills the subprocess and returns the servers
collected so far (none, since parsing happens only after `communicate`
returns); a completed run with a non-zero code and empty stdout, or blank
stdout, yields `[]`; otherwise the parsed servers sorted by name. -/
def discover (own : String) (out : DiscOutcome) : List SnapclientServer × List DiscAction :=
  match out with
  | .noAvahi => ([], [])
  | .timeout => ([], [.killProc])
  | .execError => ([], [])
  | .completed rc stdout =>
    if rc ≠ 0 ∧ stdout = "" then ([], [])
    else if trimChars stdout.data = [] then ([], [])
    else (sortByName (parse_avahi_output own stdout), [])

theorem parseStep_preserves_distinct (own : String) (line : List Char) (acc : List SnapclientServer)
    (h : acc.Pairwise (fun a b => a.host ≠ b.host)) :
    (parseStep own acc line).Pairwise (fun a b => a.host ≠ b.host) := by
  cases hp : parse_avahi_line own line with
  | none => simpa [parseStep, hp] using h
  | some srv =>
    by_cases hany : acc.any (fun x => decide (x.host = srv.host)) = true
    · simpa [parseStep, hp, hany] using h
    · have hstep : parseStep own acc line = acc ++ [srv] := by
        simp [parseStep, hp, hany]
      rw [hstep, List.pairwise_append]
      refine ⟨h, List.pairwise_singleton _ _, ?_⟩
      intro a ha b hb hhost
      simp only [List.mem_singleton] at hb
      subst hb
      exact hany (List.any_eq_true.mpr ⟨a, ha, by simp [hhost]⟩)

theorem foldl_parseStep_distinct (own : String) (lines : List (List Char))
    (acc : List SnapclientServer) (h : acc.Pairwise (fun a b => a.host ≠ b.host)) :
    (List.foldl (parseStep own) acc lines).Pairwise (fun a b => a.host ≠ b.host) := by
  induction lines generalizing acc with
  | nil => exact h
  | cons line rest ih =>
    exact ih (parseStep own acc line) (parseStep_preserves_distinct own line acc h)

theorem sortByName_sorted (l : List SnapclientServer) :
    (sortByName l).Pairwise (fun a b => a.name ≤ b.name) := by
  have h := @List.sorted_mergeSort SnapclientServer
    (fun a b : SnapclientServer => decide (a.name ≤ b.name))
    (by intro a b c hab hbc
        simp only [decide_eq_true_eq] at hab hbc ⊢
        exact le_trans hab hbc)
    (by intro a b
        simp only [Bool.or_eq_true, decide_eq_true_eq]
        exact le_total a.name b.name) l
  exact h.imp (by intro a b hab; exact of_decide_eq_true hab)

/-- Claim C5: a resolved-service line with at least 10 `;`-fields, protocol
`IPv4`, a non-loopback address and a short hostname different from the local
one yields exactly the descriptor `{host := address, name := short hostname,
port := parsed port}`; a line whose short hostname matches the local hostname
yields nothing; a line with fewer than 10 fields or an unparseable port
yields nothing and its presence does not change the parse of the remaining
lines; the output is deduplicated by host; and `discover`'s result is sorted
by name. -/
theorem parse_avahi_spec (own : String) :
    (∀ (line : List Char) (port : Int),
        List.isPrefixOf "=".data line = true →
        10 ≤ (splitOnChar ';' line).length →
        (splitOnChar ';' line).getD 2 [] = "IPv4".data →
        List.isPrefixOf "127.".data (trimChars ((splitOnChar ';' line).getD 8 [])) = false →
        lowerChars ((splitOnChar '.' (trimChars ((splitOnChar ';' line).getD 7 []))).getD 0 []) ≠ own.data →
        pyInt (trimChars ((splitOnChar ';' line).getD 9 [])) = some port →
        parse_avahi_line own line
          = some { host := ⟨trimChars ((splitOnChar ';' line).getD 8 [])⟩
                 , name := ⟨lowerChars ((splitOnChar '.' (trimChars ((splitOnChar ';' line).getD 7 []))).getD 0 [])⟩
                 , port := port })
    ∧ (∀ line : List Char,
        lowerChars ((splitOnChar '.' (trimChars ((splitOnChar ';' line).getD 7 []))).getD 0 []) = own.data →
        parse_avahi_line own line = none)
    ∧ (∀ line : List Char, (splitOnChar ';' line).length < 10 → parse_avahi_line own line = none)
    ∧ (∀ line : List Char, pyInt (trimChars ((splitOnChar ';' line).getD 9 [])) = none →
        parse_avahi_line own line = none)
    ∧ (∀ (pre post : List (List Char)) (bad : List Char), parse_avahi_line own bad = none →
        List.foldl (parseStep own) [] (pre ++ bad :: post)
          = List.foldl (parseStep own) [] (pre ++ post))
    ∧ (∀ output : String, (parse_avahi_output own output).Pairwise (fun a b => a.host ≠ b.host))
    ∧ (∀ out : DiscOutcome, (discover own out).1.Pairwise (fun a b => a.name ≤ b.name)) := by
  refine ⟨?_, ?_, ?_, ?_, ?_, ?_, ?_⟩
  · intro line port hstart hlen hproto hloop hown hport
    simp only [parse_avahi_line]
    rw [if_neg (not_not_intro hstart),
        if_neg (by omega : ¬ (splitOnChar ';' line).length < 10),
        if_neg (not_not_intro hproto),
        if_neg (fun hc => by rw [hloop] at hc; exact Bool.noConfusion hc),
        if_neg hown, hport]
  · intro line hown
    simp only [parse_avahi_line]
    split_ifs <;> rfl
  · intro line hlt
    simp only [parse_avahi_line]
    split_ifs <;> rfl
  · intro line hnone
    simp only [parse_avahi_line]
    split_ifs <;> first | rfl | rw [hnone]
  · intro pre post bad hbad
    have hskip : ∀ acc, parseStep own acc bad = acc := fun acc => by simp [parseStep, hbad]
    rw [List.foldl_append, List.foldl_cons, hskip, ← List.foldl_append]
  · intro output
    unfold parse_avahi_output
    exact foldl_parseStep_distinct own _ [] List.Pairwise.nil
  · intro out
    cases out with
    | noAvahi => exact List.Pairwise.nil
    | timeout => exact List.Pairwise.nil
    | execError => exact List.Pairwise.nil
    | completed rc stdout =>
      simp only [discover]
      split_ifs
      · exact List.Pairwise.nil
      · exact List.Pairwise.nil
      · exact sortByName_sorted _

/-- The worked avahi-browse line of the specification. -/
def exampleAvahiLine : String :=
  "=;eth0;IPv4;MyServer;_snapcast._tcp;local;resolve;myhost.local;192.168.1.50;1704;"

/-- Witness for C5 at the specification's worked example line, with local
hostname `oakos`. -/
theorem parse_avahi_spec_witness :
    (List.isPrefixOf "=".data exampleAvahiLine.data = true
      ∧ 10 ≤ (splitOnChar ';' exampleAvahiLine.data).length
      ∧ (splitOnChar ';' exampleAvahiLine.data).getD 2 [] = "IPv4".data
      ∧ List.isPrefixOf "127.".data
          (trimChars ((splitOnChar ';' exampleAvahiLine.data).getD 8 [])) = false
      ∧ lowerChars ((splitOnChar '.'
          (trimChars ((splitOnChar ';' exampleAvahiLine.data).getD 7 []))).getD 0 []) ≠ "oakos".data
      ∧ pyInt (trimChars ((splitOnChar ';' exampleAvahiLine.data).getD 9 [])) = some 1704)
    ∧ parse_avahi_line "oakos" exampleAvahiLine.data
        = some { host := "192.168.1.50", name := "myhost", port := 1704 } := by
  refine ⟨⟨by decide, by decide, by decide, by decide, by decide, by decide⟩, ?_⟩
  have h := (parse_avahi_spec "oakos").1 exampleAvahiLine.data 1704
    (by decide) (by decide) (by decide) (by decide) (by decide) (by decide)
  rw [h]
  decide

/-- Claim C6: `discover` degrades gracefully — when `avahi-browse` is
unavailable it returns the empty list rather than raising; when the bounded
wait (default 3 seconds) times out it kills the subprocess and returns the
(empty) collection gathered so far; an exec failure also yields the empty
list. -/
theorem discover_degrades_gracefully (own : String) :
    (discover own .noAvahi).1 = []
    ∧ (discover own .timeout).1 = []
    ∧ DiscAction.killProc ∈ (discover own .timeout).2
    ∧ (discover own .execError).1 = []
    ∧ discoveryDefaultTimeoutSeconds = 3 := by
  refine ⟨rfl, rfl, ?_, rfl, rfl⟩
  simp [discover]

/-- The plugin state machine's states (spec §3; the string constants
`STATE_INACTIVE`, `STATE_READY_TO_CONNECT`, `STATE_CONNECTED` of
`BaseAudioPlugin` in `base.py`). -/
inductive PluginState where
  | inactive
  | readyToConnect
  | connected
  deriving Repr, DecidableEq

/-- Modelled from the spec: the `ValidTransitions` table of §3.  The
transition machinery is not under src/ (only the state constants in
`base.py` and the `transition_to_state` call sites in `plugin.py` are). -/
def validTransitions : PluginState → List PluginState
  | .inactive => [.readyToConnect]
  | .readyToConnect => [.connected, .inactive]
  | .connected => [.readyToConnect, .inactive]

/-- State of the plugin state machine: the current state and the recorded
server while Connected. -/
structure SMState where
  current : PluginState
  server : Option SnapclientServer
  deriving Repr, DecidableEq

/-- Modelled from the spec: `setState` (`transition_to_state`) of §4.4 — its
implementation is not under src/ (src's `plugin.py` only calls it; `base.py`
only declares the state constants).  Per the spec's steps: (1) no-op fast
path returning success when the target equals the current state and is not
Connected; (2) validation against `ValidTransitions`, rejecting actual
transitions that are not listed, without mutation — a repeated `Connected`
is not treated as a transition, per the spec's remark that it reconfirms the
connection with updated server metadata; (3) mutation, recording the server
on entering Connected and clearing it on leaving Connected; (4) broadcast of
the new state (the returned list). -/
def setState (s : SMState) (new : PluginState) (srv : Option SnapclientServer) :
    Bool × SMState × List PluginState :=
  if new = s.current ∧ new ≠ .connected then (true, s, [])
  else if new ≠ s.current ∧ new ∉ validTransitions s.current then (false, s, [])
  else
    let server2 := if new = .connected then srv
                   else if s.current = .connected then none else s.server
    (true, { current := new, server := server2 }, [new])

/-- Claim C4 counterexample: the self-request Inactive → Inactive has a
target outside `ValidTransitions[Inactive]`, yet `setState` returns success
(the spec's no-op fast path), not false. -/
theorem setState_self_noop_counterexample :
    PluginState.inactive ∉ validTransitions .inactive
    ∧ (setState ⟨.inactive, none⟩ .inactive none).1 = true := by
  exact ⟨by decide, rfl⟩

/-- Claim C4 (amended): for every state S and target T not in
`ValidTransitions[S]`, the machine state remains S; whenever additionally
T ≠ S, the request returns false with no mutation at all.  (As frozen the
claim fails only for T = S, where the spec's no-op fast path — and the
Connected reconfirmation — return success while still leaving the machine
state at S.) -/
theorem setState_rejects_invalid (s : SMState) (new : PluginState)
    (srv : Option SnapclientServer) (hinv : new ∉ validTransitions s.current) :
    (setState s new srv).2.1.current = s.current
    ∧ (new ≠ s.current →
        (setState s new srv).1 = false ∧ (setState s new srv).2.1 = s) := by
  by_cases hne : new = s.current
  · refine ⟨?_, fun hc => absurd hne hc⟩
    by_cases hc2 : new = .connected
    · have hstep : (setState s new srv).2.1.current = new := by
        rw [setState, if_neg (fun hand => hand.2 hc2), if_neg (fun hand => hand.1 hne)]
      rw [hstep]; exact hne
    · rw [setState, if_pos ⟨hne, hc2⟩]
  · have hrej : (setState s new srv) = (false, s, []) := by
      rw [setState, if_neg (fun hand => hne hand.1), if_pos ⟨hne, hinv⟩]
    rw [hrej]
    exact ⟨rfl, fun _ => ⟨rfl, rfl⟩⟩

/-- Witness for the amended C4 at the invalid transition
Inactive → Connected. -/
theorem setState_rejects_invalid_witness :
    (PluginState.connected ∉ validTransitions PluginState.inactive)
    ∧ ((setState ⟨.inactive, none⟩ .connected none).2.1.current = PluginState.inactive
      ∧ (PluginState.connected ≠ PluginState.inactive →
          (setState ⟨.inactive, none⟩ .connected none).1 = false
          ∧ (setState ⟨.inactive, none⟩ .connected none).2.1 = ⟨.inactive, none⟩)) :=
  ⟨by decide, setState_rejects_invalid ⟨.inactive, none⟩ .connected none (by decide)⟩

/-- Plugin-level state of `SnapclientPlugin` (`plugin.py`): the base-class
`is_active` flag, the auto-discover/auto-connect policies, the discovered
and blacklisted servers, the `_avoid_reconnect` guard, the state machine,
the process manager state, and the connection manager's current server (the
connection manager itself, `connection.py`, is not under src/; the field
follows spec §4.3). -/
structure PluginS where
  isActive : Bool
  autoDiscover : Bool
  autoConnect : Bool
  discoveredServers : List SnapclientServer
  blacklistedServers : List String
  avoidReconnect : Bool
  sm : SMState
  pm : PMState
  currentServer : Option SnapclientServer
  deriving Repr, DecidableEq

/-- Shape of the dict results returned by the plugin's command handlers. -/
structure CmdResult where
  success : Bool
  error : Option String := none
  message : Option String := none
  inactive : Bool := false
  blacklisted : Bool := false
  server : Option SnapclientServer := none
  deriving Repr, DecidableEq

/-- Externally observable actions at the plugin level: a connection attempt
for a host, the list handed to `handle_discovered_servers`, a discovery
invocation, and the scheduling of the guard-reset task. -/
inductive PluginAction where
  | connectAttempt (host : String)
  | handleDiscovered (servers : List SnapclientServer)
  | discoverCall
  | resetLockScheduled
  deriving Repr, DecidableEq

/-- `SnapclientPlugin._handle_connect_command` (`plugin.py` 239-284): a
missing host is an error; a blacklisted host is rejected with
`blacklisted: true` before any connection attempt; otherwise the server is
looked up among the discovered ones or synthesized, and
`connection_manager.connect` (not under src/; its outcome is the
`connectSuccess` argument) is attempted, transitioning the state machine to
Connected on success. -/
def handle_connect_command (connectSuccess : Bool) (hostArg : Option String) (s : PluginS) :
    CmdResult × PluginS × List PluginAction :=
  match hostArg with
  | none => ({ success := false, error := some "Host is required" }, s, [])
  | some host =>
    if host ∈ s.blacklistedServers then
      ({ success := false
       , error := some ("Le serveur " ++ host ++ " a été déconnecté manuellement. Changez de source audio pour pouvoir vous y reconnecter.")
       , blacklisted := true }, s, [])
    else
      let server := (s.discoveredServers.find? (fun srv => decide (srv.host = host))).getD
        { host := host, name := "Snapserver (" ++ host ++ ")" }
      if connectSuccess then
        let sm2 := (setState s.sm .connected (some server)).2.1
        ({ success := true, message := some ("Connexion au serveur " ++ server.name)
         , server := some server },
          { s with sm := sm2, currentServer := some server }, [.connectAttempt host])
      else
        ({ success := false, message := some ("Échec de la connexion au serveur " ++ server.name) },
          s, [.connectAttempt host])

/-- `SnapclientPlugin._discover_and_connect` (`plugin.py` 490-510): discover
(the `discover_servers` wrapper is not under src/; its result is the
`discovered` argument), filter out blacklisted hosts, store the filtered
list, and when servers remain and auto-connect is enabled hand the filtered
list to `connection_manager.handle_discovered_servers` (not under src/; an
auto-connected outcome is the `hdsAutoConnected` argument), which sets the
reconnection guard, schedules its reset and transitions to Connected. -/
def discover_and_connect (discovered : List SnapclientServer)
    (hdsAutoConnected : Option SnapclientServer) (s : PluginS) :
    PluginS × List PluginAction :=
  let filtered := discovered.filter (fun srv => decide (srv.host ∉ s.blacklistedServers))
  let s1 := { s with discoveredServers := filtered }
  if filtered ≠ [] ∧ s.autoConnect then
    match hdsAutoConnected with
    | some srv =>
      let sm2 := (setState s1.sm .connected (some srv)).2.1
      ({ s1 with avoidReconnect := true, sm := sm2 },
        [.handleDiscovered filtered, .resetLockScheduled])
    | none => (s1, [.handleDiscovered filtered])
  else (s1, [])

/-- `SnapclientPlugin.start` (`plugin.py` 60-110): reset the blacklist,
activate, reload the auto-connect policy from config, clear the reconnection
guard, run the Inactive and ReadyToConnect transitions, then (when
auto-discover is on) run an immediate discovery (exceptions caught and
logged), store the result and, if servers were found and auto-connect is on,
set the guard and hand the unfiltered list (the blacklist is empty here) to
`handle_discovered_servers`, scheduling the guard reset. -/
def plugin_start (autoConnectCfg : Bool) (discoveryRaises : Bool)
    (discovered : List SnapclientServer) (s : PluginS) : Bool × PluginS × List PluginAction :=
  let s1 := { s with blacklistedServers := [], isActive := true,
                     autoConnect := autoConnectCfg, avoidReconnect := false }
  let smA := (setState s1.sm .inactive none).2.1
  let smB := (setState smA .readyToConnect none).2.1
  let s2 := { s1 with sm := smB }
  if s2.autoDiscover then
    if discoveryRaises then (true, s2, [.discoverCall])
    else
      let s3 := { s2 with discoveredServers := discovered }
      if discovered ≠ [] ∧ s3.autoConnect then
        (true, { s3 with avoidReconnect := true },
          [.discoverCall, .handleDiscovered discovered, .resetLockScheduled])
      else (true, s3, [.discoverCall])
  else (true, s2, [])

theorem mem_filter_not_blacklisted (bl : List String) (l : List SnapclientServer)
    (srv : SnapclientServer)
    (h : srv ∈ l.filter (fun x => decide (x.host ∉ bl))) : srv.host ∉ bl := by
  have h2 := List.mem_filter.mp h
  simpa using h2.2

/-- Claim C3: for every blacklisted host h — a manual connect command for h
is rejected with success false and blacklisted true, without any connection
attempt or state change; the periodic auto-connect path filters servers with
host h out of the list handed to `handle_discovered_servers` and out of the
stored discovered list; and plugin start leaves the blacklist empty. -/
theorem blacklist_never_selected (cs : Bool) (disc : List SnapclientServer)
    (hds : Option SnapclientServer) (acfg dr : Bool) (disc2 : List SnapclientServer)
    (s : PluginS) (h : String) (hb : h ∈ s.blacklistedServers) :
    (handle_connect_command cs (some h) s
      = ({ success := false
         , error := some ("Le serveur " ++ h ++ " a été déconnecté manuellement. Changez de source audio pour pouvoir vous y reconnecter.")
         , blacklisted := true }, s, []))
    ∧ (∀ srvs, PluginAction.handleDiscovered srvs ∈ (discover_and_connect disc hds s).2 →
        ∀ srv ∈ srvs, srv.host ≠ h)
    ∧ (∀ srv ∈ (discover_and_connect disc hds s).1.discoveredServers, srv.host ≠ h)
    ∧ (plugin_start acfg dr disc2 s).2.1.blacklistedServers = [] := by
  refine ⟨?_, ?_, ?_, ?_⟩
  · simp [handle_connect_command, hb]
  · intro srvs hmem srv hsrv
    have hflt : srv ∈ disc.filter (fun x => decide (x.host ∉ s.blacklistedServers)) := by
      simp only [discover_and_connect] at hmem
      split_ifs at hmem with h1
      · cases hds with
        | none =>
          have h2 : PluginAction.handleDiscovered srvs
              = PluginAction.handleDiscovered
                  (disc.filter (fun x => decide (x.host ∉ s.blacklistedServers))) := by
            simpa using hmem
          cases h2; exact hsrv
        | some srv2 =>
          have h2 : PluginAction.handleDiscovered srvs
              = PluginAction.handleDiscovered
                  (disc.filter (fun x => decide (x.host ∉ s.blacklistedServers)))
              ∨ PluginAction.handleDiscovered srvs = PluginAction.resetLockScheduled := by
            simpa using hmem
          rcases h2 with h2 | h2
          · cases h2; exact hsrv
          · exact PluginAction.noConfusion h2
      · simp at hmem
    intro hcontra
    exact (mem_filter_not_blacklisted _ _ _ hflt) (hcontra ▸ hb)
  · intro srv hsrv
    have hflt : srv ∈ disc.filter (fun x => decide (x.host ∉ s.blacklistedServers)) := by
      simp only [discover_and_connect] at hsrv
      split_ifs at hsrv with h1
      · cases hds <;> simpa using hsrv
      · simpa using hsrv
    intro hcontra
    exact (mem_filter_not_blacklisted _ _ _ hflt) (hcontra ▸ hb)
  · simp only [plugin_start]
    split_ifs <;> rfl

/-- Witness for C3 with host 10.0.0.2 on the blacklist. -/
theorem blacklist_never_selected_witness :
    ("10.0.0.2" ∈
      (PluginS.mk true true true [⟨"10.0.0.2", "mac", 1704⟩] ["10.0.0.2"] false
        ⟨.readyToConnect, none⟩ ⟨none, none⟩ none).blacklistedServers)
    ∧ ((handle_connect_command true (some "10.0.0.2")
          (PluginS.mk true true true [⟨"10.0.0.2", "mac", 1704⟩] ["10.0.0.2"] false
            ⟨.readyToConnect, none⟩ ⟨none, none⟩ none)
        = ({ success := false
           , error := some ("Le serveur " ++ "10.0.0.2" ++ " a été déconnecté manuellement. Changez de source audio pour pouvoir vous y reconnecter.")
           , blacklisted := true },
           PluginS.mk true true true [⟨"10.0.0.2", "mac", 1704⟩] ["10.0.0.2"] false
             ⟨.readyToConnect, none⟩ ⟨none, none⟩ none, []))
      ∧ (∀ srvs, PluginAction.handleDiscovered srvs ∈
            (discover_and_connect [⟨"10.0.0.2", "mac", 1704⟩] none
              (PluginS.mk true true true [⟨"10.0.0.2", "mac", 1704⟩] ["10.0.0.2"] false
                ⟨.readyToConnect, none⟩ ⟨none, none⟩ none)).2 →
          ∀ srv ∈ srvs, srv.host ≠ "10.0.0.2")
      ∧ (∀ srv ∈ (discover_and_connect [⟨"10.0.0.2", "mac", 1704⟩] none
              (PluginS.mk true true true [⟨"10.0.0.2", "mac", 1704⟩] ["10.0.0.2"] false
                ⟨.readyToConnect, none⟩ ⟨none, none⟩ none)).1.discoveredServers,
          srv.host ≠ "10.0.0.2")
      ∧ (plugin_start true false []
            (PluginS.mk true true true [⟨"10.0.0.2", "mac", 1704⟩] ["10.0.0.2"] false
              ⟨.readyToConnect, none⟩ ⟨none, none⟩ none)).2.1.blacklistedServers = []) :=
  ⟨by decide,
    blacklist_never_selected true [⟨"10.0.0.2", "mac", 1704⟩] none true false []
      (PluginS.mk true true true [⟨"10.0.0.2", "mac", 1704⟩] ["10.0.0.2"] false
        ⟨.readyToConnect, none⟩ ⟨none, none⟩ none) "10.0.0.2" (by decide)⟩

/-- What one pass of the `while` in `_run_discovery_loop` observes: a task
cancellation, or the values of `is_active`, `_avoid_reconnect`,
`connection_manager.current_server` presence, and whether the iteration body
raises. -/
inductive LoopEvent where
  | cancel
  | iter (active : Bool) (avoid : Bool) (hasServer : Bool) (bodyRaises : Bool)
  deriving Repr, DecidableEq

/-- How `_run_discovery_loop` ended: the `while` condition became false, the
task was cancelled, an exception escaped the `while` into the outer
`except`, or the supplied schedule ran out with the loop still going. -/
inductive LoopExit where
  | normal
  | cancelled
  | errored
  | ranOut
  deriving Repr, DecidableEq

/-- Body calls made by one loop iteration: `_check_current_connection` or
`_discover_and_connect`. -/
inductive LoopAction where
  | checkConnection
  | discoverConnect
  deriving Repr, DecidableEq

/-- `SnapclientPlugin._run_discovery_loop` (`plugin.py` 451-476) over a
schedule of events; returns how the loop ended, how many iterations began,
and the body calls made.  The `try/except` wraps the whole `while`, so an
exception inside an iteration body ends the loop (the outer handler only
logs it); an iteration with the reconnection guard set sleeps and continues
without calling any body. -/
def run_discovery_loop (autoDiscover : Bool) : List LoopEvent → LoopExit × Nat × List LoopAction
  | [] => (.ranOut, 0, [])
  | .cancel :: _ => (.cancelled, 0, [])
  | .iter active avoid hasServer bodyRaises :: rest =>
    if active = false then (.normal, 0, [])
    else if avoid then
      let r := run_discovery_loop autoDiscover rest
      (r.1, r.2.1 + 1, r.2.2)
    else
      let acts := if hasServer then [LoopAction.checkConnection]
                  else if autoDiscover then [LoopAction.discoverConnect] else []
      if bodyRaises then (.errored, 1, acts)
      else
        let r := run_discovery_loop autoDiscover rest
        (r.1, r.2.1 + 1, acts ++ r.2.2)

/-- Claim C8 (code bug): the `except Exception` of `_run_discovery_loop`
sits outside the `while`, so an exception inside one iteration terminates
the loop.  On a schedule whose first iteration raises and whose second would
proceed normally, the loop exits `errored` after a single iteration; the
same schedule without the exception runs both iterations. -/
theorem run_discovery_loop_dies_on_exception :
    run_discovery_loop true [.iter true false false true, .iter true false false false]
      = (.errored, 1, [.discoverConnect])
    ∧ run_discovery_loop true [.iter true false false false, .iter true false false false]
      = (.ranOut, 2, [.discoverConnect, .discoverConnect]) :=
  ⟨rfl, rfl⟩

/-- The 5-second delay of `_reset_reconnect_lock` (`plugin.py` 112-116). -/
def reconnectLockDelaySeconds : Nat := 5

/-- `SnapclientPlugin._reset_reconnect_lock`: after its fixed sleep, clear
`_avoid_reconnect` unconditionally. -/
def reset_reconnect_lock (s : PluginS) : PluginS := { s with avoidReconnect := false }

/-- Claim C9: an active iteration with the reconnection guard set performs
no body call at all — the loop only moves to the next event, so no
auto-connect is issued while the guard holds; and `_reset_reconnect_lock`
clears the guard unconditionally after its fixed 5-second delay, whatever
else happened. -/
theorem reconnect_guard_skips_and_clears (ad hs br : Bool)
    (rest : List LoopEvent) (s : PluginS) :
    run_discovery_loop ad (.iter true true hs br :: rest)
      = ((run_discovery_loop ad rest).1, (run_discovery_loop ad rest).2.1 + 1,
          (run_discovery_loop ad rest).2.2)
    ∧ (reset_reconnect_lock s).avoidReconnect = false
    ∧ reconnectLockDelaySeconds = 5 :=
  ⟨rfl, rfl, rfl⟩

/-- Outcome of a dispatched command handler, supplied by the environment: it
returned a result (with the possibly mutated plugin state), or it raised an
exception with the given message (leaving the state it had mutated so
far). -/
inductive HandlerOutcome where
  | returns (r : CmdResult) (s2 : PluginS)
  | raises (msg : String) (s2 : PluginS)

/-- The dispatch table keys of `handle_command` (`plugin.py` 219-226). -/
def knownCommands : List String :=
  ["connect", "disconnect", "accept_connection", "reject_connection", "restart", "test_audio"]

/-- `SnapclientPlugin.handle_command` (`plugin.py` 202-237): any command
other than `get_status` on an inactive plugin is rejected with
`inactive: true` before any dispatch; known commands dispatch to their
handler, and the surrounding `except` converts a handler exception into
`{success: false, error}`; unknown commands yield an error result.  The
returned string list records which handlers were invoked. -/
def handle_command (cmd : String) (behavior : String → HandlerOutcome) (s : PluginS) :
    CmdResult × PluginS × List String :=
  if s.isActive = false ∧ cmd ≠ "get_status" then
    ({ success := false, error := some "Plugin inactif, commande ignorée", inactive := true },
      s, [])
  else if cmd ∈ knownCommands then
    match behavior cmd with
    | .returns r s2 => (r, s2, [cmd])
    | .raises m s2 => ({ success := false, error := some m }, s2, [cmd])
  else
    ({ success := false, error := some ("Commande inconnue: " ++ cmd) }, s, [])

/-- Claim C10: on an inactive plugin, every command other than `get_status`
is answered `{success: false, inactive: true}` with an error message,
without invoking any handler and without touching the plugin state; and
`handle_command` never propagates a handler exception — it is converted to
`{success: false, error}`. -/
theorem handle_command_gates_inactive (cmd : String) (behavior : String → HandlerOutcome)
    (s : PluginS) (hcmd : cmd ≠ "get_status") (hin : s.isActive = false) :
    handle_command cmd behavior s
      = ({ success := false, error := some "Plugin inactif, commande ignorée",
           inactive := true }, s, [])
    ∧ (∀ (c : String) (b : String → HandlerOutcome) (t t2 : PluginS) (m : String),
        t.isActive = true → b c = .raises m t2 → c ∈ knownCommands →
        handle_command c b t = ({ success := false, error := some m }, t2, [c])) := by
  constructor
  · rw [handle_command, if_pos ⟨hin, hcmd⟩]
  · intro c b t t2 m hact hb hc
    rw [handle_command, if_neg (fun hand => by rw [hact] at hand; exact Bool.noConfusion hand.1),
      if_pos hc, hb]

/-- Witness for C10: the `connect` command on an inactive plugin, and a
raising `disconnect` handler on an active one. -/
theorem handle_command_gates_inactive_witness :
    (("connect" : String) ≠ "get_status"
      ∧ (PluginS.mk false true true [] [] false ⟨.inactive, none⟩ ⟨none, none⟩ none).isActive
          = false)
    ∧ (handle_command "connect"
          (fun _ => HandlerOutcome.raises "boom"
            (PluginS.mk true true true [] [] false ⟨.inactive, none⟩ ⟨none, none⟩ none))
          (PluginS.mk false true true [] [] false ⟨.inactive, none⟩ ⟨none, none⟩ none)
        = ({ success := false, error := some "Plugin inactif, commande ignorée",
             inactive := true },
           PluginS.mk false true true [] [] false ⟨.inactive, none⟩ ⟨none, none⟩ none, [])
      ∧ (∀ (c : String) (b : String → HandlerOutcome) (t t2 : PluginS) (m : String),
          t.isActive = true → b c = .raises m t2 → c ∈ knownCommands →
          handle_command c b t = ({ success := false, error := some m }, t2, [c]))) :=
  ⟨⟨by decide, rfl⟩,
    handle_command_gates_inactive "connect"
      (fun _ => HandlerOutcome.raises "boom"
        (PluginS.mk true true true [] [] false ⟨.inactive, none⟩ ⟨none, none⟩ none))
      (PluginS.mk false true true [] [] false ⟨.inactive, none⟩ ⟨none, none⟩ none)
      (by decide) rfl⟩

/-- The boolean verdict of `SnapclientProcessManager.is_running`
(`process.py` 153-187) as a pure predicate over the process-manager state
and the `ps` probe outcome: false without a live tracked handle, otherwise
the probe's answer (falling back to the handle's own `returncode` on probe
error). -/
def processVerifiedRunning (ps : PsEnv) (pm : PMState) : Bool :=
  match pm.proc with
  | none => false
  | some h =>
    if h.returncode.isSome then false
    else
      match ps with
      | .ok alive => alive
      | .error => h.returncode.isNone

theorem is_running_fst_eq (ps : PsEnv) (e : StopEnv) (pm : PMState) :
    (is_running ⟨ps, e⟩ pm).1 = processVerifiedRunning ps pm := by
  obtain ⟨proc, host⟩ := pm
  cases proc with
  | none => rfl
  | some h =>
    cases hrc : h.returncode with
    | none =>
      cases ps with
      | ok alive => cases alive <;> simp [is_running, processVerifiedRunning, hrc]
      | error => simp [is_running, processVerifiedRunning, hrc]
    | some c => simp [is_running, processVerifiedRunning, hrc]

/-- The `getStatus` payload shape of spec §6. -/
structure StatusSnapshot where
  source : String
  pluginState : PluginState
  isActive : Bool
  connected : Bool
  host : Option String
  deviceName : Option String
  discoveredServers : List SnapclientServer
  processRunning : Bool
  pid : Option Nat
  deriving Repr, DecidableEq

/-- Modelled from the spec: `getStatus` of the minimalist plugin rewrite is
not under src/ (src's `plugin.py` is the superseded draft, delegating to the
missing `connection.py`).  Per §6 the snapshot self-corrects — when the
internal state claims Connected but the process is verified not running, it
reports the disconnected view — and the read does not mutate stored state,
so the state is returned unchanged.  Process liveness is the verdict of
`is_running` (`processVerifiedRunning`). -/
def get_status (ps : PsEnv) (s : PluginS) : StatusSnapshot × PluginS :=
  let running := processVerifiedRunning ps s.pm
  let connected := decide (s.sm.current = .connected) && running
  ({ source := "snapclient"
   , pluginState := s.sm.current
   , isActive := s.isActive
   , connected := connected
   , host := if connected then s.sm.server.map (fun srv => srv.host) else none
   , deviceName := if connected then s.sm.server.map (fun srv => srv.name) else none
   , discoveredServers := s.discoveredServers
   , processRunning := running
   , pid := if running then s.pm.proc.map (fun h2 => h2.pid) else none }, s)

/-- Claim C7: whenever the internal state claims Connected but the process
is verified not running (the verdict `is_running` would report), the
`get_status` snapshot reports `connected: false` and `processRunning: false`
and the stored plugin state is returned unchanged. -/
theorem get_status_corrects_dead_connected (ps : PsEnv) (s : PluginS)
    (hconn : s.sm.current = .connected)
    (hdead : processVerifiedRunning ps s.pm = false) :
    (get_status ps s).1.connected = false
    ∧ (get_status ps s).1.processRunning = false
    ∧ (get_status ps s).2 = s
    ∧ (∀ e, (is_running ⟨ps, e⟩ s.pm).1 = false) := by
  refine ⟨?_, ?_, rfl, ?_⟩
  · simp [get_status, hdead]
  · simp [get_status, hdead]
  · intro e; rw [is_running_fst_eq, hdead]

/-- Witness for C7: state machine Connected, a tracked handle whose process
the `ps` probe reports dead. -/
theorem get_status_corrects_dead_connected_witness :
    ((PluginS.mk true true true [] [] false ⟨.connected, some ⟨"10.0.0.2", "mac", 1704⟩⟩
        ⟨some ⟨41, none⟩, some "10.0.0.2"⟩ none).sm.current = PluginState.connected
      ∧ processVerifiedRunning (.ok false)
          (PluginS.mk true true true [] [] false ⟨.connected, some ⟨"10.0.0.2", "mac", 1704⟩⟩
            ⟨some ⟨41, none⟩, some "10.0.0.2"⟩ none).pm = false)
    ∧ ((get_status (.ok false)
          (PluginS.mk true true true [] [] false ⟨.connected, some ⟨"10.0.0.2", "mac", 1704⟩⟩
            ⟨some ⟨41, none⟩, some "10.0.0.2"⟩ none)).1.connected = false
      ∧ (get_status (.ok false)
          (PluginS.mk true true true [] [] false ⟨.connected, some ⟨"10.0.0.2", "mac", 1704⟩⟩
            ⟨some ⟨41, none⟩, some "10.0.0.2"⟩ none)).1.processRunning = false
      ∧ (get_status (.ok false)
          (PluginS.mk true true true [] [] false ⟨.connected, some ⟨"10.0.0.2", "mac", 1704⟩⟩
            ⟨some ⟨41, none⟩, some "10.0.0.2"⟩ none)).2
          = PluginS.mk true true true [] [] false ⟨.connected, some ⟨"10.0.0.2", "mac", 1704⟩⟩
              ⟨some ⟨41, none⟩, some "10.0.0.2"⟩ none
      ∧ (∀ e, (is_running ⟨.ok false, e⟩
          (PluginS.mk true true true [] [] false ⟨.connected, some ⟨"10.0.0.2", "mac", 1704⟩⟩
            ⟨some ⟨41, none⟩, some "10.0.0.2"⟩ none).pm).1 = false)) :=
  ⟨⟨rfl, rfl⟩,
    get_status_corrects_dead_connected (.ok false)
      (PluginS.mk true true true [] [] false ⟨.connected, some ⟨"10.0.0.2", "mac", 1704⟩⟩
        ⟨some ⟨41, none⟩, some "10.0.0.2"⟩ none) rfl rfl⟩

end OakOS
